import Mathlib

/-!
Shallow embedding of the mini-ecs core (src/mini_ecs.h) and the parts of the
snake demo (src/mecs_snake.c) that exercise it: the entity allocator, the
per-component stores with presence flags, the conjunctive scan queries, and
the world-level component clearing on entity destruction.

Machine integers: `Entity` is C `unsigned int`; the only place overflow can
matter is the post-increment of `next_entity` in `mecs_entity_create`, which
is modelled with an explicit `% 2 ^ 32`.  Array indexing in the C code is
unchecked; arrays are modelled as total functions `Nat → α` and the in-range
preconditions of the spec appear as hypotheses `e < MAX_ENTITIES`.
-/

/-- CAP: `#define MAX_ENTITIES 1024` (the default, used by the snake demo). -/
def MAX_ENTITIES : Nat := 1024

/-- One more than the largest C `unsigned int` value (32-bit). -/
def UINT_MOD : Nat := 2 ^ 32

/-- The `EntityManager` struct: `next_entity`, the `free_list` array of
`MAX_ENTITIES` slots (entries at indices ≥ `free_count` are junk), and
`free_count`. -/
structure EntityManager where
  next_entity : Nat
  free_list : Nat → Nat
  free_count : Nat

/-- `mecs_entity_create`: pop the free list if non-empty, else return
`next_entity++` (with unsigned wrap-around).  Returns the issued identifier
and the updated manager. -/
def mecs_entity_create (em : EntityManager) : Nat × EntityManager :=
  if 0 < em.free_count then
    (em.free_list (em.free_count - 1), { em with free_count := em.free_count - 1 })
  else
    (em.next_entity, { em with next_entity := (em.next_entity + 1) % UINT_MOD })

/-- `mecs_entity_destroy`: push `e` onto the free list when there is room;
otherwise do nothing. -/
def mecs_entity_destroy (em : EntityManager) (e : Nat) : EntityManager :=
  if em.free_count < MAX_ENTITIES then
    { em with
        free_list := fun i => if i = em.free_count then e else em.free_list i,
        free_count := em.free_count + 1 }
  else
    em

/-- `MECS_DEFINE_COMPONENT(CompType, Name)`: a value array and a parallel
presence-flag array, both of size `MAX_ENTITIES`. -/
structure Store (T : Type) where
  values : Nat → T
  flag : Nat → Bool

/-- `MECS_HAS_COMPONENT(World, Name, e)`. -/
def MECS_HAS_COMPONENT {T : Type} (s : Store T) (e : Nat) : Bool :=
  s.flag e

/-- `MECS_SET_COMPONENT(World, Name, e, Value)`: write the value and raise the
flag at slot `e`. -/
def MECS_SET_COMPONENT {T : Type} (s : Store T) (e : Nat) (v : T) : Store T :=
  { values := fun i => if i = e then v else s.values i,
    flag := fun i => if i = e then true else s.flag i }

/-- `MECS_CLEAR_COMPONENT(World, Name, e)`: lower the flag at slot `e`; the
value array is untouched. -/
def MECS_CLEAR_COMPONENT {T : Type} (s : Store T) (e : Nat) : Store T :=
  { s with flag := fun i => if i = e then false else s.flag i }

/-- `MECS_FOREACH_2(World, C1, C2, e)`: the sequence of entities the loop
body runs on — slots `0 .. MAX_ENTITIES - 1`, in order, whose flags are set
in both stores. -/
def MECS_FOREACH_2 {A B : Type} (s1 : Store A) (s2 : Store B) : List Nat :=
  (List.range MAX_ENTITIES).filter fun e => s1.flag e && s2.flag e

/-- `MECS_FOREACH_3(World, C1, C2, C3, e)`: as `MECS_FOREACH_2` with a
three-way flag conjunction. -/
def MECS_FOREACH_3 {A B C : Type} (s1 : Store A) (s2 : Store B) (s3 : Store C) :
    List Nat :=
  (List.range MAX_ENTITIES).filter fun e => s1.flag e && s2.flag e && s3.flag e

/-! ### Component types of the snake demo (src/mecs_snake.c) -/

structure Collidable where

structure Consumer where

structure Interactable where

inductive Direction
  | UP
  | DOWN
  | LEFT
  | RIGHT

structure Drawable where
  symbol : Char

structure Edible where
  points : Int
  grows : Bool
  resets : Bool

structure Position where
  x : Int
  y : Int

/-- The `SnakeWorld` struct: the allocator, the eight registered component
stores (the `follower` component carries an `Entity`), and the score. -/
structure SnakeWorld where
  em : EntityManager
  collidable : Store Collidable
  consumer : Store Consumer
  direction : Store Direction
  drawable : Store Drawable
  edible : Store Edible
  follower : Store Nat
  interactable : Store Interactable
  position : Store Position
  score : Int

/-- `clear_components(game, e)`: clear every registered store's entry for
`e`.  The eight clears touch pairwise distinct fields, so the sequential C
statements are one simultaneous record update. -/
def clear_components (game : SnakeWorld) (e : Nat) : SnakeWorld :=
  { game with
      collidable := MECS_CLEAR_COMPONENT game.collidable e,
      consumer := MECS_CLEAR_COMPONENT game.consumer e,
      direction := MECS_CLEAR_COMPONENT game.direction e,
      drawable := MECS_CLEAR_COMPONENT game.drawable e,
      edible := MECS_CLEAR_COMPONENT game.edible e,
      follower := MECS_CLEAR_COMPONENT game.follower e,
      interactable := MECS_CLEAR_COMPONENT game.interactable e,
      position := MECS_CLEAR_COMPONENT game.position e }

/-- `destroy_entity(game, e)`: clear all components of `e`, then release `e`
to the allocator. -/
def destroy_entity (game : SnakeWorld) (e : Nat) : SnakeWorld :=
  let g := clear_components game e
  { g with em := mecs_entity_destroy g.em e }

/-! ### Concrete states used by the witnesses -/

/-- The zero-initialised allocator (the `calloc` in `new_game`). -/
def initEM : EntityManager :=
  { next_entity := 0, free_list := fun _ => 0, free_count := 0 }

/-- An allocator whose `free_count` is 2, holding identifiers 5 and 7. -/
def twoFreeEM : EntityManager :=
  { next_entity := 8, free_list := fun i => if i = 0 then 5 else 7, free_count := 2 }

/-- An allocator at capacity: `next_entity = MAX_ENTITIES`, empty free list. -/
def fullEM : EntityManager :=
  { next_entity := MAX_ENTITIES, free_list := fun _ => 0, free_count := 0 }

/-- A `Position` store with every flag raised. -/
def posStoreT : Store Position :=
  { values := fun _ => { x := 0, y := 0 }, flag := fun _ => true }

/-- A `Position` store with every flag lowered. -/
def posStoreF : Store Position :=
  { values := fun _ => { x := 0, y := 0 }, flag := fun _ => false }

/-- The zero-initialised game world (the `calloc` in `new_game`). -/
def game0 : SnakeWorld :=
  { em := initEM,
    collidable := { values := fun _ => {}, flag := fun _ => false },
    consumer := { values := fun _ => {}, flag := fun _ => false },
    direction := { values := fun _ => Direction.UP, flag := fun _ => false },
    drawable := { values := fun _ => { symbol := ' ' }, flag := fun _ => false },
    edible := { values := fun _ => { points := 0, grows := false, resets := false }, flag := fun _ => false },
    follower := { values := fun _ => 0, flag := fun _ => false },
    interactable := { values := fun _ => {}, flag := fun _ => false },
    position := { values := fun _ => { x := 0, y := 0 }, flag := fun _ => false },
    score := 0 }

/-! ### C5: the creation algorithm -/

/-- Claim C5: below capacity, `mecs_entity_create` pops the top free-list
entry (decrementing `free_count`, leaving `next_entity` and the array
unchanged) when the free list is non-empty, and otherwise returns
`next_entity` and increments it by one, leaving the free list unchanged. -/
theorem create_algorithm (em : EntityManager) :
    (0 < em.free_count →
      (mecs_entity_create em).1 = em.free_list (em.free_count - 1) ∧
      (mecs_entity_create em).2.free_count = em.free_count - 1 ∧
      (mecs_entity_create em).2.next_entity = em.next_entity ∧
      (mecs_entity_create em).2.free_list = em.free_list) ∧
    (em.free_count = 0 → em.next_entity < MAX_ENTITIES →
      (mecs_entity_create em).1 = em.next_entity ∧
      (mecs_entity_create em).2.next_entity = em.next_entity + 1 ∧
      (mecs_entity_create em).2.free_count = em.free_count ∧
      (mecs_entity_create em).2.free_list = em.free_list) := by
  constructor
  · intro h
    simp [mecs_entity_create, h]
  · intro h hcap
    have hmod : em.next_entity + 1 < UINT_MOD := by
      have : em.next_entity < 1024 := hcap
      simp only [UINT_MOD]
      omega
    simp [mecs_entity_create, h, Nat.mod_eq_of_lt hmod]

/-- Witness for C5 at concrete allocators: popping from `twoFreeEM` yields 7
and leaves `next_entity` at 8; a fresh issue from `initEM` yields 0 and bumps
`next_entity` to 1. -/
theorem create_algorithm_witness :
    ((mecs_entity_create twoFreeEM).1 = 7 ∧
      (mecs_entity_create twoFreeEM).2.free_count = 1 ∧
      (mecs_entity_create twoFreeEM).2.next_entity = 8) ∧
    ((mecs_entity_create initEM).1 = 0 ∧
      (mecs_entity_create initEM).2.next_entity = 1) := by
  have h1 := (create_algorithm twoFreeEM).1 (by decide)
  have h2 := (create_algorithm initEM).2 rfl (by decide)
  refine ⟨⟨?_, h1.2.1, h1.2.2.1⟩, h2.1, h2.2.1⟩
  rw [h1.1]
  rfl

/-! ### C8: destruction is total and never writes outside the free list -/

/-- Claim C8: `mecs_entity_destroy` stores `e` at `free_list[free_count]` and
increments `free_count` when there is room, touching no other slot and not
`next_entity`; with the free list full it leaves the allocator unchanged. -/
theorem destroy_bounded_total (em : EntityManager) (e : Nat) :
    (em.free_count < MAX_ENTITIES →
      (mecs_entity_destroy em e).free_list em.free_count = e ∧
      (mecs_entity_destroy em e).free_count = em.free_count + 1 ∧
      (mecs_entity_destroy em e).next_entity = em.next_entity ∧
      ∀ i, i ≠ em.free_count → (mecs_entity_destroy em e).free_list i = em.free_list i) ∧
    (em.free_count = MAX_ENTITIES → mecs_entity_destroy em e = em) := by
  constructor
  · intro h
    refine ⟨?_, ?_, ?_, ?_⟩
    · simp [mecs_entity_destroy, h]
    · simp [mecs_entity_destroy, h]
    · simp [mecs_entity_destroy, h]
    · intro i hi
      simp [mecs_entity_destroy, h, hi]
  · intro h
    simp [mecs_entity_destroy, h]

/-- Witness for C8: destroying 3 in `initEM` records it at slot 0; with a
full free list the allocator is returned unchanged. -/
theorem destroy_bounded_total_witness :
    ((mecs_entity_destroy initEM 3).free_list 0 = 3 ∧
      (mecs_entity_destroy initEM 3).free_count = 1 ∧
      (mecs_entity_destroy initEM 3).free_list 1 = initEM.free_list 1) ∧
    mecs_entity_destroy { initEM with free_count := MAX_ENTITIES } 3 =
      { initEM with free_count := MAX_ENTITIES } := by
  have h1 := (destroy_bounded_total initEM 3).1 (by decide)
  have h2 := (destroy_bounded_total { initEM with free_count := MAX_ENTITIES } 3).2 rfl
  exact ⟨⟨h1.1, h1.2.1, h1.2.2.2 1 (by decide)⟩, h2⟩

/-! ### C9: identifier reuse is last-in-first-out -/

/-- Claim C9: with room on the free list, destroying `e` and immediately
creating again returns exactly `e` — create pops the entry destroy pushed. -/
theorem destroy_then_create_lifo (em : EntityManager) (e : Nat)
    (h : em.free_count < MAX_ENTITIES) :
    (mecs_entity_create (mecs_entity_destroy em e)).1 = e := by
  simp [mecs_entity_create, mecs_entity_destroy, h]

/-- Witness for C9: destroying 5 in `initEM` and creating again returns 5. -/
theorem destroy_then_create_lifo_witness :
    (mecs_entity_create (mecs_entity_destroy initEM 5)).1 = 5 :=
  destroy_then_create_lifo initEM 5 (by decide)

/-! ### C6: set followed by get -/

/-- Claim C6: for in-range `e`, `MECS_SET_COMPONENT` writes `values[e] = v`
and `present[e] = true` (overwriting any prior value), so a following get
observes the flag raised and the stored value equal to `v`. -/
theorem set_then_get {T : Type} (s : Store T) (e : Nat) (v : T)
    (h : e < MAX_ENTITIES) :
    (MECS_SET_COMPONENT s e v).values e = v ∧
    MECS_HAS_COMPONENT (MECS_SET_COMPONENT s e v) e = true := by
  simp [MECS_SET_COMPONENT, MECS_HAS_COMPONENT]

/-- Witness for C6: setting slot 2 of the all-absent position store to
`(3, 4)` stores that value and raises the flag. -/
theorem set_then_get_witness :
    (MECS_SET_COMPONENT posStoreF 2 { x := 3, y := 4 }).values 2 = { x := 3, y := 4 } ∧
    MECS_HAS_COMPONENT (MECS_SET_COMPONENT posStoreF 2 { x := 3, y := 4 }) 2 = true :=
  set_then_get posStoreF 2 { x := 3, y := 4 } (by decide)

/-! ### C7: clear yields absence, is idempotent, and is a no-op on absence -/

/-- Claim C7: after `MECS_CLEAR_COMPONENT` the flag at `e` is lowered so get
observes absence; clearing twice equals clearing once; and clearing an
already-absent component leaves the store exactly as it was. -/
theorem clear_absent_idempotent {T : Type} (s : Store T) (e : Nat)
    (h : e < MAX_ENTITIES) :
    MECS_HAS_COMPONENT (MECS_CLEAR_COMPONENT s e) e = false ∧
    MECS_CLEAR_COMPONENT (MECS_CLEAR_COMPONENT s e) e = MECS_CLEAR_COMPONENT s e ∧
    (s.flag e = false → MECS_CLEAR_COMPONENT s e = s) := by
  refine ⟨by simp [MECS_CLEAR_COMPONENT, MECS_HAS_COMPONENT], ?_, ?_⟩
  · show Store.mk _ _ = Store.mk _ _
    congr 1
    funext i
    by_cases hi : i = e <;> simp [MECS_CLEAR_COMPONENT, hi]
  · intro habs
    show Store.mk _ _ = Store.mk s.values s.flag
    congr 1
    funext i
    by_cases hi : i = e <;> simp [MECS_CLEAR_COMPONENT, hi, habs]

/-- Witness for C7: clearing slot 1 of the all-present position store lowers
its flag; clearing slot 1 of the all-absent store returns it unchanged. -/
theorem clear_absent_idempotent_witness :
    MECS_HAS_COMPONENT (MECS_CLEAR_COMPONENT posStoreT 1) 1 = false ∧
    MECS_CLEAR_COMPONENT posStoreF 1 = posStoreF :=
  ⟨(clear_absent_idempotent posStoreT 1 (by decide)).1,
    (clear_absent_idempotent posStoreF 1 (by decide)).2.2 rfl⟩

/-! ### C1: queries enumerate exactly the flag conjunction, in ascending order -/

/-- A second all-present `Position` store, with different stored values than
`posStoreT` but the same flags (used to witness query stability). -/
def posStoreT' : Store Position :=
  { values := fun _ => { x := 1, y := 1 }, flag := fun _ => true }

/-- Claim C1: a two-way (and three-way) query yields exactly the slots
`e < MAX_ENTITIES` whose listed presence flags are all true, the resulting
sequence is sorted in ascending identifier order, and it is unchanged when
the presence flags are unchanged on every slot. -/
theorem query_conjunction_sorted_stable {A B C : Type}
    (s1 t1 : Store A) (s2 t2 : Store B) (s3 : Store C) (e : Nat) :
    (e ∈ MECS_FOREACH_2 s1 s2 ↔
      e < MAX_ENTITIES ∧ s1.flag e = true ∧ s2.flag e = true) ∧
    (e ∈ MECS_FOREACH_3 s1 s2 s3 ↔
      e < MAX_ENTITIES ∧ s1.flag e = true ∧ s2.flag e = true ∧ s3.flag e = true) ∧
    List.Sorted (· < ·) (MECS_FOREACH_2 s1 s2) ∧
    List.Sorted (· < ·) (MECS_FOREACH_3 s1 s2 s3) ∧
    ((∀ i, i < MAX_ENTITIES → s1.flag i = t1.flag i ∧ s2.flag i = t2.flag i) →
      MECS_FOREACH_2 s1 s2 = MECS_FOREACH_2 t1 t2) := by
  refine ⟨?_, ?_, ?_, ?_, ?_⟩
  · simp [MECS_FOREACH_2, List.mem_filter, List.mem_range, and_assoc]
  · simp [MECS_FOREACH_3, List.mem_filter, List.mem_range, and_assoc]
  · exact List.Pairwise.sublist (List.filter_sublist _) (List.sorted_lt_range _)
  · exact List.Pairwise.sublist (List.filter_sublist _) (List.sorted_lt_range _)
  · intro hagree
    unfold MECS_FOREACH_2
    apply List.filter_congr
    intro i hi
    rw [List.mem_range] at hi
    rw [(hagree i hi).1, (hagree i hi).2]

/-- Witness for C1: slot 5 is matched by a query over two all-present stores,
and replacing the stores by others with identical flags (but different
values) leaves the query result unchanged. -/
theorem query_conjunction_sorted_stable_witness :
    5 ∈ MECS_FOREACH_2 posStoreT posStoreT ∧
    MECS_FOREACH_2 posStoreT posStoreT = MECS_FOREACH_2 posStoreT' posStoreT' :=
  ⟨(query_conjunction_sorted_stable posStoreT posStoreT' posStoreT posStoreT'
      posStoreT 5).1.mpr ⟨by decide, rfl, rfl⟩,
    (query_conjunction_sorted_stable posStoreT posStoreT' posStoreT posStoreT'
      posStoreT 5).2.2.2.2 fun i _ => ⟨rfl, rfl⟩⟩

/-! ### C2: destroying an entity clears every component before the release -/

/-- Claim C2: after `destroy_entity(game, e)` every registered store reports
`e` absent, and the allocator state is exactly `mecs_entity_destroy` applied
to the (unchanged-by-clearing) allocator — the stores are cleared before `e`
is released, so a reissued identifier starts with no component attached. -/
theorem destroy_entity_clears_all_components (game : SnakeWorld) (e : Nat) :
    MECS_HAS_COMPONENT (destroy_entity game e).collidable e = false ∧
    MECS_HAS_COMPONENT (destroy_entity game e).consumer e = false ∧
    MECS_HAS_COMPONENT (destroy_entity game e).direction e = false ∧
    MECS_HAS_COMPONENT (destroy_entity game e).drawable e = false ∧
    MECS_HAS_COMPONENT (destroy_entity game e).edible e = false ∧
    MECS_HAS_COMPONENT (destroy_entity game e).follower e = false ∧
    MECS_HAS_COMPONENT (destroy_entity game e).interactable e = false ∧
    MECS_HAS_COMPONENT (destroy_entity game e).position e = false ∧
    (destroy_entity game e).em = mecs_entity_destroy game.em e := by
  refine ⟨?_, ?_, ?_, ?_, ?_, ?_, ?_, ?_, rfl⟩ <;>
    simp [destroy_entity, clear_components, MECS_CLEAR_COMPONENT, MECS_HAS_COMPONENT]

/-! ### C4: there is no capacity check in mecs_entity_create (corrected) -/

/-- Counterexample to C4 as stated: invoking `mecs_entity_create` on an
allocator at capacity (`next_entity = MAX_ENTITIES`, empty free list) does
not leave the allocator unchanged — `next_entity` is incremented. -/
theorem create_at_capacity_counterexample :
    ¬ ((mecs_entity_create fullEM).2.next_entity = fullEM.next_entity) := by
  norm_num [mecs_entity_create, fullEM, UINT_MOD, MAX_ENTITIES]

/-- Amended C4: `mecs_entity_create` performs no capacity check.  With the
free list empty it unconditionally returns `next_entity` — even when that is
`≥ MAX_ENTITIES`, an out-of-range slot — and increments `next_entity`
(wrapping only at 2^32); no capacity-exhaustion error is reported and the
allocator state changes. -/
theorem create_no_capacity_check (em : EntityManager) (h : em.free_count = 0) :
    (mecs_entity_create em).1 = em.next_entity ∧
    (mecs_entity_create em).2.next_entity = (em.next_entity + 1) % UINT_MOD := by
  simp [mecs_entity_create, h]

/-- Witness for the amended C4: at capacity, create hands out the
out-of-range identifier `MAX_ENTITIES` and bumps `next_entity` past it. -/
theorem create_no_capacity_check_witness :
    (mecs_entity_create fullEM).1 = MAX_ENTITIES ∧
    (mecs_entity_create fullEM).2.next_entity = MAX_ENTITIES + 1 := by
  have h := create_no_capacity_check fullEM rfl
  exact ⟨h.1, by rw [h.2]; norm_num [fullEM, UINT_MOD, MAX_ENTITIES]⟩

/-! ### C3: no two concurrently-live entities share an identifier -/

/-- An allocator paired with the multiset of currently-live identifiers:
those returned by `mecs_entity_create` and not yet passed to
`mecs_entity_destroy`. -/
structure AllocState where
  em : EntityManager
  live : List Nat

/-- One allocator call under the claim's preconditions: creation only while
an identifier below `MAX_ENTITIES` is available (free list non-empty or
`next_entity` below capacity), destruction only of a currently-live
identifier (which thereby stops being live). -/
inductive AllocStep : AllocState → AllocState → Prop
  | create (s : AllocState)
      (h : 0 < s.em.free_count ∨ s.em.next_entity < MAX_ENTITIES) :
      AllocStep s ⟨(mecs_entity_create s.em).2, (mecs_entity_create s.em).1 :: s.live⟩
  | destroy (s : AllocState) (e : Nat) (h : e ∈ s.live) :
      AllocStep s ⟨mecs_entity_destroy s.em e, s.live.erase e⟩

/-- States reachable from the zero-initialised allocator with no live
entities. -/
inductive AllocReachable : AllocState → Prop
  | init : AllocReachable ⟨initEM, []⟩
  | step {s t : AllocState} : AllocReachable s → AllocStep s t → AllocReachable t

/-- The allocator invariant: live identifiers are pairwise distinct and below
`next_entity`; the in-use prefix of the free list holds pairwise distinct
identifiers below `next_entity`, none of them live; and `next_entity` stays
within capacity. -/
def AllocInv (s : AllocState) : Prop :=
  s.live.Nodup ∧
  (∀ x ∈ s.live, x < s.em.next_entity) ∧
  (∀ i, i < s.em.free_count → s.em.free_list i < s.em.next_entity) ∧
  (∀ i j, i < j → j < s.em.free_count → s.em.free_list i ≠ s.em.free_list j) ∧
  (∀ i, i < s.em.free_count → s.em.free_list i ∉ s.live) ∧
  s.em.next_entity ≤ MAX_ENTITIES

theorem allocStep_inv {s t : AllocState} (hs : AllocInv s) (hst : AllocStep s t) :
    AllocInv t := by
  obtain ⟨hnd, hlive, hfl, hfd, hfnl, hcap⟩ := hs
  cases hst with
  | create hguard =>
    by_cases hfc : 0 < s.em.free_count
    · simp only [AllocInv, mecs_entity_create, if_pos hfc]
      refine ⟨?_, ?_, ?_, ?_, ?_, hcap⟩
      · exact List.nodup_cons.mpr ⟨hfnl _ (by omega), hnd⟩
      · intro x hx
        rcases List.mem_cons.mp hx with hx | hx
        · exact hx ▸ hfl _ (by omega)
        · exact hlive x hx
      · intro i hi
        exact hfl i (by omega)
      · intro i j hij hj
        exact hfd i j hij (by omega)
      · intro i hi hmem
        rcases List.mem_cons.mp hmem with hx | hx
        · exact hfd i (s.em.free_count - 1) (by omega) (by omega) hx
        · exact hfnl i (by omega) hx
    · have hnext : s.em.next_entity < MAX_ENTITIES := hguard.resolve_left hfc
      have h1024 : s.em.next_entity < 1024 := by
        simpa [MAX_ENTITIES] using hnext
      have hmod : (s.em.next_entity + 1) % UINT_MOD = s.em.next_entity + 1 := by
        have hU : UINT_MOD = 4294967296 := by norm_num [UINT_MOD]
        exact Nat.mod_eq_of_lt (by omega)
      simp only [AllocInv, mecs_entity_create, if_neg hfc]
      refine ⟨?_, ?_, ?_, ?_, ?_, ?_⟩
      · exact List.nodup_cons.mpr ⟨fun hmem => absurd (hlive _ hmem) (lt_irrefl _), hnd⟩
      · intro x hx
        rcases List.mem_cons.mp hx with hx | hx
        · simp [hx, hmod]
        · have := hlive x hx
          simp only [hmod]
          omega
      · intro i hi
        exact absurd hi (by omega)
      · intro i j hij hj
        exact absurd hj (by omega)
      · intro i hi
        exact absurd hi (by omega)
      · simp only [hmod, MAX_ENTITIES] at *
        omega
  | destroy e he =>
    by_cases hroom : s.em.free_count < MAX_ENTITIES
    · simp only [AllocInv, mecs_entity_destroy, if_pos hroom]
      refine ⟨hnd.erase e, ?_, ?_, ?_, ?_, hcap⟩
      · intro x hx
        exact hlive x (List.mem_of_mem_erase hx)
      · intro i hi
        by_cases hieq : i = s.em.free_count
        · simpa [hieq] using hlive e he
        · simpa [hieq] using hfl i (by omega)
      · intro i j hij hj
        by_cases hjeq : j = s.em.free_count
        · have hine : i ≠ s.em.free_count := by omega
          simp only [hjeq, if_pos rfl, if_neg hine]
          intro heq
          exact hfnl i (by omega) (heq ▸ he)
        · have hine : i ≠ s.em.free_count := by omega
          simpa [hine, hjeq] using hfd i j hij (by omega)
      · intro i hi
        by_cases hieq : i = s.em.free_count
        · simp only [hieq, if_pos rfl]
          intro hmem
          exact absurd rfl ((hnd.mem_erase_iff.mp hmem).1)
        · simp only [if_neg hieq]
          intro hmem
          exact hfnl i (by omega) (List.mem_of_mem_erase hmem)
    · simp only [AllocInv, mecs_entity_destroy, if_neg hroom]
      refine ⟨hnd.erase e, ?_, hfl, hfd, ?_, hcap⟩
      · intro x hx
        exact hlive x (List.mem_of_mem_erase hx)
      · intro i hi hmem
        exact hfnl i hi (List.mem_of_mem_erase hmem)

theorem allocReachable_inv {s : AllocState} (h : AllocReachable s) : AllocInv s := by
  induction h with
  | init =>
    refine ⟨List.nodup_nil, ?_, ?_, ?_, ?_, ?_⟩ <;>
      simp [initEM, MAX_ENTITIES]
  | step _ hst ih => exact allocStep_inv ih hst

/-- Claim C3: in every state reachable by `mecs_entity_create` and
`mecs_entity_destroy` calls from the initial allocator — destroying only live
identifiers and creating only while capacity remains — the list of live
identifiers contains no duplicate: no two concurrently-live entities share an
identifier. -/
theorem live_entities_nodup (s : AllocState) (h : AllocReachable s) :
    s.live.Nodup :=
  (allocReachable_inv h).1

/-- Witness for C3: the state after one create from the initial allocator is
reachable, and its single live identifier list has no duplicates. -/
theorem live_entities_nodup_witness :
    ((mecs_entity_create initEM).1 :: ([] : List Nat)).Nodup :=
  live_entities_nodup _ (AllocReachable.step AllocReachable.init
    (AllocStep.create ⟨initEM, []⟩ (Or.inr (by decide))))

/-! ### C10: every mutation touches only its own slot -/

/-- Store agreement at one slot: value and presence flag unchanged. -/
def agreeAt {T : Type} (s s' : Store T) (i : Nat) : Prop :=
  s'.values i = s.values i ∧ s'.flag i = s.flag i

theorem set_agreeAt {T : Type} (s : Store T) (e i : Nat) (v : T) (hi : i ≠ e) :
    agreeAt s (MECS_SET_COMPONENT s e v) i := by
  refine ⟨?_, ?_⟩ <;> simp [MECS_SET_COMPONENT, hi]

theorem clear_agreeAt {T : Type} (s : Store T) (e i : Nat) (hi : i ≠ e) :
    agreeAt s (MECS_CLEAR_COMPONENT s e) i := by
  refine ⟨rfl, ?_⟩
  simp [MECS_CLEAR_COMPONENT, hi]

/-! World-level instantiations of the component macros, one per call shape
`MECS_SET_COMPONENT(game, name, e, v)` / `MECS_CLEAR_COMPONENT(game, name, e)`
on the `SnakeWorld` struct. -/

def set_collidable (game : SnakeWorld) (e : Nat) (v : Collidable) : SnakeWorld :=
  { game with collidable := MECS_SET_COMPONENT game.collidable e v }

def set_consumer (game : SnakeWorld) (e : Nat) (v : Consumer) : SnakeWorld :=
  { game with consumer := MECS_SET_COMPONENT game.consumer e v }

def set_direction (game : SnakeWorld) (e : Nat) (v : Direction) : SnakeWorld :=
  { game with direction := MECS_SET_COMPONENT game.direction e v }

def set_drawable (game : SnakeWorld) (e : Nat) (v : Drawable) : SnakeWorld :=
  { game with drawable := MECS_SET_COMPONENT game.drawable e v }

def set_edible (game : SnakeWorld) (e : Nat) (v : Edible) : SnakeWorld :=
  { game with edible := MECS_SET_COMPONENT game.edible e v }

def set_follower (game : SnakeWorld) (e : Nat) (v : Nat) : SnakeWorld :=
  { game with follower := MECS_SET_COMPONENT game.follower e v }

def set_interactable (game : SnakeWorld) (e : Nat) (v : Interactable) : SnakeWorld :=
  { game with interactable := MECS_SET_COMPONENT game.interactable e v }

def set_position (game : SnakeWorld) (e : Nat) (v : Position) : SnakeWorld :=
  { game with position := MECS_SET_COMPONENT game.position e v }

def clear_collidable (game : SnakeWorld) (e : Nat) : SnakeWorld :=
  { game with collidable := MECS_CLEAR_COMPONENT game.collidable e }

def clear_consumer (game : SnakeWorld) (e : Nat) : SnakeWorld :=
  { game with consumer := MECS_CLEAR_COMPONENT game.consumer e }

def clear_direction (game : SnakeWorld) (e : Nat) : SnakeWorld :=
  { game with direction := MECS_CLEAR_COMPONENT game.direction e }

def clear_drawable (game : SnakeWorld) (e : Nat) : SnakeWorld :=
  { game with drawable := MECS_CLEAR_COMPONENT game.drawable e }

def clear_edible (game : SnakeWorld) (e : Nat) : SnakeWorld :=
  { game with edible := MECS_CLEAR_COMPONENT game.edible e }

def clear_follower (game : SnakeWorld) (e : Nat) : SnakeWorld :=
  { game with follower := MECS_CLEAR_COMPONENT game.follower e }

def clear_interactable (game : SnakeWorld) (e : Nat) : SnakeWorld :=
  { game with interactable := MECS_CLEAR_COMPONENT game.interactable e }

def clear_position (game : SnakeWorld) (e : Nat) : SnakeWorld :=
  { game with position := MECS_CLEAR_COMPONENT game.position e }

/-! Frame predicates: the mutation of the named store left the seven other
stores, the allocator and the score unchanged, and the named store itself
unchanged on every slot other than `e`. -/

def FrameCollidable (g g' : SnakeWorld) (e : Nat) : Prop :=
  g'.consumer = g.consumer ∧ g'.direction = g.direction ∧ g'.drawable = g.drawable ∧
  g'.edible = g.edible ∧ g'.follower = g.follower ∧ g'.interactable = g.interactable ∧
  g'.position = g.position ∧ g'.em = g.em ∧ g'.score = g.score ∧
  ∀ i, i ≠ e → agreeAt g.collidable g'.collidable i

def FrameConsumer (g g' : SnakeWorld) (e : Nat) : Prop :=
  g'.collidable = g.collidable ∧ g'.direction = g.direction ∧ g'.drawable = g.drawable ∧
  g'.edible = g.edible ∧ g'.follower = g.follower ∧ g'.interactable = g.interactable ∧
  g'.position = g.position ∧ g'.em = g.em ∧ g'.score = g.score ∧
  ∀ i, i ≠ e → agreeAt g.consumer g'.consumer i

def FrameDirection (g g' : SnakeWorld) (e : Nat) : Prop :=
  g'.collidable = g.collidable ∧ g'.consumer = g.consumer ∧ g'.drawable = g.drawable ∧
  g'.edible = g.edible ∧ g'.follower = g.follower ∧ g'.interactable = g.interactable ∧
  g'.position = g.position ∧ g'.em = g.em ∧ g'.score = g.score ∧
  ∀ i, i ≠ e → agreeAt g.direction g'.direction i

def FrameDrawable (g g' : SnakeWorld) (e : Nat) : Prop :=
  g'.collidable = g.collidable ∧ g'.consumer = g.consumer ∧ g'.direction = g.direction ∧
  g'.edible = g.edible ∧ g'.follower = g.follower ∧ g'.interactable = g.interactable ∧
  g'.position = g.position ∧ g'.em = g.em ∧ g'.score = g.score ∧
  ∀ i, i ≠ e → agreeAt g.drawable g'.drawable i

def FrameEdible (g g' : SnakeWorld) (e : Nat) : Prop :=
  g'.collidable = g.collidable ∧ g'.consumer = g.consumer ∧ g'.direction = g.direction ∧
  g'.drawable = g.drawable ∧ g'.follower = g.follower ∧ g'.interactable = g.interactable ∧
  g'.position = g.position ∧ g'.em = g.em ∧ g'.score = g.score ∧
  ∀ i, i ≠ e → agreeAt g.edible g'.edible i

def FrameFollower (g g' : SnakeWorld) (e : Nat) : Prop :=
  g'.collidable = g.collidable ∧ g'.consumer = g.consumer ∧ g'.direction = g.direction ∧
  g'.drawable = g.drawable ∧ g'.edible = g.edible ∧ g'.interactable = g.interactable ∧
  g'.position = g.position ∧ g'.em = g.em ∧ g'.score = g.score ∧
  ∀ i, i ≠ e → agreeAt g.follower g'.follower i

def FrameInteractable (g g' : SnakeWorld) (e : Nat) : Prop :=
  g'.collidable = g.collidable ∧ g'.consumer = g.consumer ∧ g'.direction = g.direction ∧
  g'.drawable = g.drawable ∧ g'.edible = g.edible ∧ g'.follower = g.follower ∧
  g'.position = g.position ∧ g'.em = g.em ∧ g'.score = g.score ∧
  ∀ i, i ≠ e → agreeAt g.interactable g'.interactable i

def FramePosition (g g' : SnakeWorld) (e : Nat) : Prop :=
  g'.collidable = g.collidable ∧ g'.consumer = g.consumer ∧ g'.direction = g.direction ∧
  g'.drawable = g.drawable ∧ g'.edible = g.edible ∧ g'.follower = g.follower ∧
  g'.interactable = g.interactable ∧ g'.em = g.em ∧ g'.score = g.score ∧
  ∀ i, i ≠ e → agreeAt g.position g'.position i

/-- Claim C10: each set/clear on a store modifies only slot `e` of that
store, leaving its other slots, the seven other stores, the allocator and
the score unchanged; and `destroy_entity(game, e)` leaves the component
values and presence flags of every slot `i ≠ e` unchanged (and the score). -/
theorem mutation_frame (game : SnakeWorld) (e : Nat)
    (vCol : Collidable) (vCon : Consumer) (vDir : Direction) (vDra : Drawable)
    (vEdi : Edible) (vFol : Nat) (vInt : Interactable) (vPos : Position) :
    FrameCollidable game (set_collidable game e vCol) e ∧
    FrameCollidable game (clear_collidable game e) e ∧
    FrameConsumer game (set_consumer game e vCon) e ∧
    FrameConsumer game (clear_consumer game e) e ∧
    FrameDirection game (set_direction game e vDir) e ∧
    FrameDirection game (clear_direction game e) e ∧
    FrameDrawable game (set_drawable game e vDra) e ∧
    FrameDrawable game (clear_drawable game e) e ∧
    FrameEdible game (set_edible game e vEdi) e ∧
    FrameEdible game (clear_edible game e) e ∧
    FrameFollower game (set_follower game e vFol) e ∧
    FrameFollower game (clear_follower game e) e ∧
    FrameInteractable game (set_interactable game e vInt) e ∧
    FrameInteractable game (clear_interactable game e) e ∧
    FramePosition game (set_position game e vPos) e ∧
    FramePosition game (clear_position game e) e ∧
    ((destroy_entity game e).score = game.score ∧
      ∀ i, i ≠ e →
        agreeAt game.collidable (destroy_entity game e).collidable i ∧
        agreeAt game.consumer (destroy_entity game e).consumer i ∧
        agreeAt game.direction (destroy_entity game e).direction i ∧
        agreeAt game.drawable (destroy_entity game e).drawable i ∧
        agreeAt game.edible (destroy_entity game e).edible i ∧
        agreeAt game.follower (destroy_entity game e).follower i ∧
        agreeAt game.interactable (destroy_entity game e).interactable i ∧
        agreeAt game.position (destroy_entity game e).position i) := by
  refine ⟨⟨rfl, rfl, rfl, rfl, rfl, rfl, rfl, rfl, rfl, fun i hi => set_agreeAt _ _ _ _ hi⟩,
    ⟨rfl, rfl, rfl, rfl, rfl, rfl, rfl, rfl, rfl, fun i hi => clear_agreeAt _ _ _ hi⟩,
    ⟨rfl, rfl, rfl, rfl, rfl, rfl, rfl, rfl, rfl, fun i hi => set_agreeAt _ _ _ _ hi⟩,
    ⟨rfl, rfl, rfl, rfl, rfl, rfl, rfl, rfl, rfl, fun i hi => clear_agreeAt _ _ _ hi⟩,
    ⟨rfl, rfl, rfl, rfl, rfl, rfl, rfl, rfl, rfl, fun i hi => set_agreeAt _ _ _ _ hi⟩,
    ⟨rfl, rfl, rfl, rfl, rfl, rfl, rfl, rfl, rfl, fun i hi => clear_agreeAt _ _ _ hi⟩,
    ⟨rfl, rfl, rfl, rfl, rfl, rfl, rfl, rfl, rfl, fun i hi => set_agreeAt _ _ _ _ hi⟩,
    ⟨rfl, rfl, rfl, rfl, rfl, rfl, rfl, rfl, rfl, fun i hi => clear_agreeAt _ _ _ hi⟩,
    ⟨rfl, rfl, rfl, rfl, rfl, rfl, rfl, rfl, rfl, fun i hi => set_agreeAt _ _ _ _ hi⟩,
    ⟨rfl, rfl, rfl, rfl, rfl, rfl, rfl, rfl, rfl, fun i hi => clear_agreeAt _ _ _ hi⟩,
    ⟨rfl, rfl, rfl, rfl, rfl, rfl, rfl, rfl, rfl, fun i hi => set_agreeAt _ _ _ _ hi⟩,
    ⟨rfl, rfl, rfl, rfl, rfl, rfl, rfl, rfl, rfl, fun i hi => clear_agreeAt _ _ _ hi⟩,
    ⟨rfl, rfl, rfl, rfl, rfl, rfl, rfl, rfl, rfl, fun i hi => set_agreeAt _ _ _ _ hi⟩,
    ⟨rfl, rfl, rfl, rfl, rfl, rfl, rfl, rfl, rfl, fun i hi => clear_agreeAt _ _ _ hi⟩,
    ⟨rfl, rfl, rfl, rfl, rfl, rfl, rfl, rfl, rfl, fun i hi => set_agreeAt _ _ _ _ hi⟩,
    ⟨rfl, rfl, rfl, rfl, rfl, rfl, rfl, rfl, rfl, fun i hi => clear_agreeAt _ _ _ hi⟩,
    rfl, fun i hi =>
      ⟨clear_agreeAt _ _ _ hi, clear_agreeAt _ _ _ hi, clear_agreeAt _ _ _ hi,
        clear_agreeAt _ _ _ hi, clear_agreeAt _ _ _ hi, clear_agreeAt _ _ _ hi,
        clear_agreeAt _ _ _ hi, clear_agreeAt _ _ _ hi⟩⟩

/-- Witness for C10 at a concrete world: setting the position of slot 0
leaves slot 1 of the position store and the allocator untouched, and
destroying slot 0 leaves the drawable entry of slot 2 untouched. -/
theorem mutation_frame_witness :
    agreeAt game0.position (set_position game0 0 { x := 9, y := 9 }).position 1 ∧
    (set_position game0 0 { x := 9, y := 9 }).em = game0.em ∧
    agreeAt game0.drawable (destroy_entity game0 0).drawable 2 := by
  have h := mutation_frame game0 0 {} {} Direction.UP { symbol := 'O' }
    { points := 1, grows := true, resets := true } 0 {} { x := 9, y := 9 }
  obtain ⟨_, _, _, _, _, _, _, _, _, _, _, _, _, _, h15, _, hdes⟩ := h
  obtain ⟨_, _, _, _, _, _, _, hem, _, hidx⟩ := h15
  exact ⟨hidx 1 (by decide), hem, ((hdes.2 2 (by decide)).2.2.2.1)⟩
